import Mathlib

/-!
Shallow embedding of the vtol boundary-representation topology network of
the vxl repository (contrib/gel/vtol), centered on `vtol_edge`
(src/contrib/gel/vtol/vtol_edge.h).  Method bodies that live in
vtol_edge.cxx are not part of the provided sources; where a claim depends
on such a body, the definition is modelled from the specification and its
doc comment says so.
-/

/-- Dimension tag of a topological entity (spec section 3: vertex, edge,
zero-chain, one-chain, face, two-chain, block). -/
inductive topology_kind : Type where
  | vertex
  | zero_chain
  | edge
  | one_chain
  | face
  | two_chain
  | block
deriving DecidableEq, Repr

/-- Modelled from the spec: invariant R2 type table (spec sections 3 and 4.3).
`accepts_inferior sup inf` is true when an entity of kind `sup` may accept an
inferior of kind `inf`: an edge accepts only zero-chains, a zero-chain only
vertices, a one-chain only edges, a face only one-chains, a two-chain only
faces, a block only two-chains, and a vertex accepts no inferior. -/
def accepts_inferior : topology_kind → topology_kind → Bool
  | topology_kind.edge, topology_kind.zero_chain => true
  | topology_kind.zero_chain, topology_kind.vertex => true
  | topology_kind.one_chain, topology_kind.edge => true
  | topology_kind.face, topology_kind.one_chain => true
  | topology_kind.two_chain, topology_kind.face => true
  | topology_kind.block, topology_kind.two_chain => true
  | _, _ => false

/-- State of the topology network: every entity (identified by a `Nat`)
carries a link table of inferiors and one of superiors
(vtol_topology_object, spec section 3). -/
structure topo_state : Type where
  inferiors : Nat → List Nat
  superiors : Nat → List Nat

/-- Pointwise update of a link table. -/
def table_set (f : Nat → List Nat) (k : Nat) (l : List Nat) : Nat → List Nat :=
  fun x => if x = k then l else f x

/-- Modelled from the spec: `vtol_topology_object::link_inferior` (declared at
vtol_edge.h:153 for edges; body not in the provided sources).  Spec 4.1: fails
with `TypeMismatch` (state unchanged) unless the inferior's dimension is the
accepted one; on success adds `b` to the inferior table of `a` and adds `a`
to the superior table of `b`. -/
def link_inferior (kind : Nat → topology_kind) (s : topo_state) (a b : Nat) :
    topo_state :=
  if accepts_inferior (kind a) (kind b) then
    { inferiors := table_set s.inferiors a (s.inferiors a ++ [b])
      superiors := table_set s.superiors b (s.superiors b ++ [a]) }
  else s

/-- Modelled from the spec: `vtol_topology_object::unlink_inferior` (declared
at vtol_edge.h:154 for edges; body not in the provided sources).  Spec 4.1:
fails with `NotLinked` (state unchanged) if `b` is not currently an inferior
of `a`; otherwise removes both directions of the link. -/
def unlink_inferior (s : topo_state) (a b : Nat) : topo_state :=
  if b ∈ s.inferiors a then
    { inferiors := table_set s.inferiors a ((s.inferiors a).erase b)
      superiors := table_set s.superiors b ((s.superiors b).erase a) }
  else s

/-- Modelled from the spec: `vtol_edge::add_edge_loop` (declared at
vtol_edge.h:122; body not in the provided sources).  Spec 4.2: manages the
one-chain superior set of edge `e` with the same reciprocity guarantee as
section 4.1, i.e. the one-chain `c` links the edge as an inferior. -/
def add_edge_loop (kind : Nat → topology_kind) (s : topo_state) (e c : Nat) :
    topo_state :=
  link_inferior kind s c e

/-- Modelled from the spec: `vtol_edge::remove_edge_loop` (declared at
vtol_edge.h:123; body not in the provided sources).  The one-chain `c`
unlinks the edge `e` from its inferiors. -/
def remove_edge_loop (s : topo_state) (e c : Nat) : topo_state :=
  unlink_inferior s c e

/-- One mutating call on the link structure of the network. -/
inductive topo_op : Type where
  | link (a b : Nat)
  | unlink (a b : Nat)
  | addLoop (e c : Nat)
  | removeLoop (e c : Nat)
deriving DecidableEq, Repr

/-- Interpret one mutating call. -/
def apply_topo_op (kind : Nat → topology_kind) (s : topo_state) :
    topo_op → topo_state
  | topo_op.link a b => link_inferior kind s a b
  | topo_op.unlink a b => unlink_inferior s a b
  | topo_op.addLoop e c => add_edge_loop kind s e c
  | topo_op.removeLoop e c => remove_edge_loop s e c

/-- The initial network: no entity has any link. -/
def init_topo : topo_state :=
  { inferiors := fun _ => [], superiors := fun _ => [] }

/-- Run a sequence of mutating calls from the empty network. -/
def run_topo (kind : Nat → topology_kind) (ops : List topo_op) : topo_state :=
  ops.foldl (apply_topo_op kind) init_topo

/-- Reciprocity, counted: every pair (a, b) appears as often in the inferior
table of `a` as in the superior table of `b`.  This implies invariant R1. -/
def recip (s : topo_state) : Prop :=
  ∀ a b : Nat, (s.inferiors a).count b = (s.superiors b).count a

theorem recip_init : recip init_topo := by
  intro a b
  rfl

theorem recip_link (kind : Nat → topology_kind) (s : topo_state) (a b : Nat)
    (h : recip s) : recip (link_inferior kind s a b) := by
  unfold link_inferior
  split
  · intro x y
    simp only [table_set]
    by_cases hx : x = a <;> by_cases hy : y = b <;>
      simp [hx, hy, List.count_append, List.count_cons, List.count_nil, h x y,
        h a y, h x b, h a b]
  · exact h

theorem recip_unlink (s : topo_state) (a b : Nat) (h : recip s) :
    recip (unlink_inferior s a b) := by
  unfold unlink_inferior
  split
  · intro x y
    simp only [table_set]
    by_cases hx : x = a <;> by_cases hy : y = b <;>
      simp [hx, hy, List.count_erase, h x y, h a y, h x b, h a b]
  · exact h

theorem recip_apply (kind : Nat → topology_kind) (s : topo_state)
    (op : topo_op) (h : recip s) : recip (apply_topo_op kind s op) := by
  cases op with
  | link a b => exact recip_link kind s a b h
  | unlink a b => exact recip_unlink s a b h
  | addLoop e c => exact recip_link kind s c e h
  | removeLoop e c => exact recip_unlink s c e h

theorem recip_foldl (kind : Nat → topology_kind) (ops : List topo_op)
    (s : topo_state) (h : recip s) :
    recip (ops.foldl (apply_topo_op kind) s) := by
  induction ops generalizing s with
  | nil => exact h
  | cons op rest ih =>
    exact ih (apply_topo_op kind s op) (recip_apply kind s op h)

theorem recip_mem (s : topo_state) (h : recip s) (a b : Nat) :
    b ∈ s.inferiors a ↔ a ∈ s.superiors b := by
  rw [← List.count_pos_iff, ← List.count_pos_iff, h a b]

/-- C1: reciprocity invariant R1.  After any sequence of `link_inferior` /
`unlink_inferior` / `add_edge_loop` / `remove_edge_loop` calls (under any
assignment of kinds to entities), entity `b` is listed among the inferiors of
entity `a` if and only if `a` is listed among the superiors of `b`. -/
theorem C1_reciprocity (kind : Nat → topology_kind) (ops : List topo_op)
    (a b : Nat) :
    b ∈ (run_topo kind ops).inferiors a ↔ a ∈ (run_topo kind ops).superiors b :=
  recip_mem (run_topo kind ops) (recip_foldl kind ops init_topo recip_init) a b

/-- Error taxonomy of the topology core (spec section 7). -/
inductive vtol_error : Type where
  | TypeMismatch
  | NotLinked
  | NotAnEndpoint
  | InvalidArgument
deriving DecidableEq, Repr

/-- A zero-chain: an ordered sequence of vertices bounding one edge (spec
section 3).  `id` models C++ object identity (smart pointers compare
addresses); `verts` is the ordered vertex sequence, each vertex an entity
identifier. -/
structure vtol_zero_chain : Type where
  id : Nat
  verts : List Nat
deriving DecidableEq, Repr

/-- Modelled from the spec: the `vtol_zero_chain` default constructor invoked
by `new vtol_zero_chain` at vtol_edge.h:70 (its body is not in the provided
sources).  Spec 6: an edge is born with "one empty zero-chain". -/
def vtol_zero_chain.mk_empty (i : Nat) : vtol_zero_chain :=
  { id := i, verts := [] }

/-- Local view of a `vtol_edge` (vtol_edge.h:51-198): the two optional cached
endpoint vertex pointers `v1_`, `v2_` (lines 59-60), the zero-chain inferiors,
the one-chain superiors (edge loops), and the modification stamp bumped by
`touch()`. -/
structure vtol_edge : Type where
  v1_ : Option Nat
  v2_ : Option Nat
  zero_chains : List vtol_zero_chain
  edge_loops : List Nat
  touch_count : Nat
deriving DecidableEq, Repr

/-- `vtol_edge::v1` (vtol_edge.h:85): return the first endpoint. -/
def vtol_edge.v1 (e : vtol_edge) : Option Nat := e.v1_

/-- `vtol_edge::v2` (vtol_edge.h:90): return the second endpoint. -/
def vtol_edge.v2 (e : vtol_edge) : Option Nat := e.v2_

/-- Modelled from the spec: the edge-local effect of
`vtol_edge::link_inferior` (vtol_edge.h:153; body not in the provided
sources).  The zero-chain is appended to the inferior table (the reciprocal
superior entry is covered by the `topo_state` model above). -/
def vtol_edge.link_inferior (e : vtol_edge) (zc : vtol_zero_chain) :
    vtol_edge :=
  { e with
    zero_chains := e.zero_chains ++ [zc]
    touch_count := e.touch_count + 1 }

/-- Modelled from the spec: the edge-local effect of
`vtol_edge::unlink_inferior` (vtol_edge.h:154; body not in the provided
sources).  Fails with `NotLinked` if the chain (compared by identity) is not
an inferior; otherwise removes it. -/
def vtol_edge.unlink_inferior (e : vtol_edge) (zc : vtol_zero_chain) :
    Except vtol_error vtol_edge :=
  if (e.zero_chains.map vtol_zero_chain.id).contains zc.id then
    Except.ok { e with
      zero_chains := e.zero_chains.filter (fun c => c.id ≠ zc.id)
      touch_count := e.touch_count + 1 }
  else Except.error vtol_error.NotLinked

/-- `vtol_edge::vtol_edge(void)` (vtol_edge.h:70, body in the header):
`v1_(0), v2_(0) { link_inferior(new vtol_zero_chain); }` — both endpoint
caches null, then a freshly constructed empty zero-chain (identity 0 here)
is linked. -/
def vtol_edge.mk_default : vtol_edge :=
  vtol_edge.link_inferior
    { v1_ := none, v2_ := none, zero_chains := [], edge_loops := [],
      touch_count := 0 }
    (vtol_zero_chain.mk_empty 0)

/-- Modelled from the spec: `vtol_edge::set_v1` (vtol_edge.h:100; body not in
the provided sources).  Spec 4.2: fails with `InvalidArgument` if the vertex
pointer is null; otherwise replaces the cached endpoint `v1_` and bumps the
modification stamp, editing neither the zero-chain's vertex sequence nor
`v2_`. -/
def vtol_edge.set_v1 (e : vtol_edge) (v : Option Nat) :
    Except vtol_error vtol_edge :=
  match v with
  | none => Except.error vtol_error.InvalidArgument
  | some w =>
      Except.ok { e with v1_ := some w, touch_count := e.touch_count + 1 }

/-- Modelled from the spec: `vtol_edge::set_v2` (vtol_edge.h:105; body not in
the provided sources).  Same contract as `set_v1`, for the slot `v2_`. -/
def vtol_edge.set_v2 (e : vtol_edge) (v : Option Nat) :
    Except vtol_error vtol_edge :=
  match v with
  | none => Except.error vtol_error.InvalidArgument
  | some w =>
      Except.ok { e with v2_ := some w, touch_count := e.touch_count + 1 }

/-- Modelled from the spec: `vtol_edge::zero_chain` (vtol_edge.h:95; body not
in the provided sources).  The doc comment in the header reads: return the
first non-empty zero-chain of the receiver edge. -/
def vtol_edge.zero_chain (e : vtol_edge) : Option vtol_zero_chain :=
  e.zero_chains.find? (fun zc => ! zc.verts.isEmpty)

/-- Modelled from the spec: `vtol_edge::set_vertices_from_zero_chains`
(vtol_edge.h:110; body not in the provided sources).  Spec 4.2: recomputes
`v1_` / `v2_` from the first / last vertex of the zero-chain inferior; when
no zero-chain has a first vertex there is nothing to copy and the edge is
left unchanged. -/
def vtol_edge.set_vertices_from_zero_chains (e : vtol_edge) : vtol_edge :=
  match e.zero_chain with
  | some zc =>
      { e with
        v1_ := zc.verts.head?
        v2_ := zc.verts.getLast?
        touch_count := e.touch_count + 1 }
  | none => e

/-- Modelled from the spec: `vtol_edge::replace_end_point` (vtol_edge.h:115;
body not in the provided sources).  Spec 4.2: if `old` equals `v1_` or `v2_`
by identity, rebinds exactly that slot to `new_` and leaves the other slot
untouched; otherwise fails with `NotAnEndpoint`, leaving the edge unchanged.
The two arguments are C++ references, hence never null. -/
def vtol_edge.replace_end_point (e : vtol_edge) (old new_ : Nat) :
    Except vtol_error vtol_edge :=
  if e.v1_ = some old then
    Except.ok { e with v1_ := some new_, touch_count := e.touch_count + 1 }
  else if e.v2_ = some old then
    Except.ok { e with v2_ := some new_, touch_count := e.touch_count + 1 }
  else Except.error vtol_error.NotAnEndpoint

/-- Modelled from the spec: the edge-local effect of
`vtol_edge::add_edge_loop` (vtol_edge.h:122; body not in the provided
sources): record the one-chain `c` among the edge's superiors. -/
def vtol_edge.add_edge_loop (e : vtol_edge) (c : Nat) : vtol_edge :=
  { e with edge_loops := e.edge_loops ++ [c], touch_count := e.touch_count + 1 }

/-- Modelled from the spec: the edge-local effect of
`vtol_edge::remove_edge_loop` (vtol_edge.h:123; body not in the provided
sources): remove the one-chain `c` from the edge's superiors, failing with
`NotLinked` when absent. -/
def vtol_edge.remove_edge_loop (e : vtol_edge) (c : Nat) :
    Except vtol_error vtol_edge :=
  if e.edge_loops.contains c then
    Except.ok { e with
      edge_loops := e.edge_loops.erase c
      touch_count := e.touch_count + 1 }
  else Except.error vtol_error.NotLinked

/-- Modelled from the spec: `vtol_edge::compute_vertices` (vtol_edge.h:168;
body not in the provided sources).  Spec 4.2: O(1) from the cached endpoints
— `[v1, v2]`, deduplicated to a singleton when `v1 == v2` — rather than
walking the zero-chain. -/
def vtol_edge.compute_vertices (e : vtol_edge) : List Nat :=
  match e.v1_, e.v2_ with
  | some a, some b => if a = b then [a] else [a, b]
  | some a, none => [a]
  | none, some b => [b]
  | none, none => []

/-- The set endpoints of an edge, as a list (at most two entries). -/
def vtol_edge.endpoint_list (e : vtol_edge) : List Nat :=
  e.v1_.toList ++ e.v2_.toList

/-- Modelled from the spec: `vtol_edge::share_vertex_with` (vtol_edge.h:181;
body not in the provided sources).  Spec 4.2: true iff the two edges'
endpoint sets intersect. -/
def vtol_edge.share_vertex_with (e other : vtol_edge) : Bool :=
  e.endpoint_list.any (fun v => other.endpoint_list.contains v)

/-- Modelled from the spec: `vtol_edge::operator==` (vtol_edge.h:118; body
not in the provided sources).  Spec 4.2: value equality compares endpoint
equality and delegates to the abstract `compare_geometry` supplied by the
concrete curve subtype, here a parameter `cg`. -/
def vtol_edge.op_eq (cg : vtol_edge → vtol_edge → Bool) (e other : vtol_edge) :
    Bool :=
  e.v1_ = other.v1_ && e.v2_ = other.v2_ && cg e other

/-- `vtol_edge::operator!=` (vtol_edge.h:119, body in the header):
`return !operator==(other);`. -/
def vtol_edge.op_ne (cg : vtol_edge → vtol_edge → Bool) (e other : vtol_edge) :
    Bool :=
  ! vtol_edge.op_eq cg e other

/-- One call of the edge mutation API (spec section 6). -/
inductive edge_op : Type where
  | setV1 (v : Option Nat)
  | setV2 (v : Option Nat)
  | replaceEndPoint (old new_ : Nat)
  | setVerticesFromZeroChains
  | linkInferior (zc : vtol_zero_chain)
  | unlinkInferior (zc : vtol_zero_chain)
  | addEdgeLoop (c : Nat)
  | removeEdgeLoop (c : Nat)
deriving DecidableEq, Repr

/-- The edge a fallible call leaves behind: its result on success, the
untouched receiver on failure (spec section 7: no partial mutation). -/
def after_call (e : vtol_edge) (r : Except vtol_error vtol_edge) : vtol_edge :=
  match r with
  | Except.ok e' => e'
  | Except.error _ => e

/-- Interpret one edge mutation call on the receiver edge. -/
def apply_edge_op (e : vtol_edge) : edge_op → vtol_edge
  | edge_op.setV1 v => after_call e (e.set_v1 v)
  | edge_op.setV2 v => after_call e (e.set_v2 v)
  | edge_op.replaceEndPoint old new_ => after_call e (e.replace_end_point old new_)
  | edge_op.setVerticesFromZeroChains => e.set_vertices_from_zero_chains
  | edge_op.linkInferior zc => e.link_inferior zc
  | edge_op.unlinkInferior zc => after_call e (e.unlink_inferior zc)
  | edge_op.addEdgeLoop c => e.add_edge_loop c
  | edge_op.removeEdgeLoop c => after_call e (e.remove_edge_loop c)

/-- Run a sequence of edge mutation calls. -/
def run_edge (e : vtol_edge) (ops : List edge_op) : vtol_edge :=
  ops.foldl apply_edge_op e

/-- The edge states named by the spec (section 3): EMPTY (both endpoint
caches unset), RAY (`v1_` set, `v2_` unset), BOUNDED (both set).  The spec
names no state for `v1_` unset with `v2_` set; that combination is
`V2_ONLY` here. -/
inductive edge_state : Type where
  | EMPTY
  | RAY
  | BOUNDED
  | V2_ONLY
deriving DecidableEq, Repr

/-- Classify an edge by which endpoint caches are set. -/
def state_of (e : vtol_edge) : edge_state :=
  match e.v1_, e.v2_ with
  | none, none => edge_state.EMPTY
  | some _, none => edge_state.RAY
  | some _, some _ => edge_state.BOUNDED
  | none, some _ => edge_state.V2_ONLY

/-- A concrete bounded edge used to instantiate hypotheses: endpoints 1 and 2,
one zero-chain listing them in order. -/
def edge_demo : vtol_edge :=
  { v1_ := some 1, v2_ := some 2,
    zero_chains := [{ id := 0, verts := [1, 2] }],
    edge_loops := [], touch_count := 0 }

/-- C2: `replace_end_point(old, new)` rebinds exactly the matching endpoint
slot: when `old` is the cached `v1_`, the call succeeds with `v1() = new` and
`v2()`, the zero-chains and the edge loops untouched; when `old` matches only
`v2_`, symmetrically; when `old` is neither endpoint, the call fails with
`NotAnEndpoint` and the edge is left bit-for-bit unchanged. -/
theorem C2_replace_end_point (e : vtol_edge) (old new_ : Nat) :
    (e.v1_ = some old →
      ∃ e', e.replace_end_point old new_ = Except.ok e' ∧
        e'.v1 = some new_ ∧ e'.v2 = e.v2 ∧
        e'.zero_chains = e.zero_chains ∧ e'.edge_loops = e.edge_loops) ∧
    (e.v1_ ≠ some old → e.v2_ = some old →
      ∃ e', e.replace_end_point old new_ = Except.ok e' ∧
        e'.v2 = some new_ ∧ e'.v1 = e.v1 ∧
        e'.zero_chains = e.zero_chains ∧ e'.edge_loops = e.edge_loops) ∧
    (e.v1_ ≠ some old → e.v2_ ≠ some old →
      e.replace_end_point old new_ = Except.error vtol_error.NotAnEndpoint ∧
      apply_edge_op e (edge_op.replaceEndPoint old new_) = e) := by
  refine ⟨?_, ?_, ?_⟩
  · intro h1
    exact ⟨{ e with v1_ := some new_, touch_count := e.touch_count + 1 },
      by simp [vtol_edge.replace_end_point, h1], rfl, rfl, rfl, rfl⟩
  · intro h1 h2
    exact ⟨{ e with v2_ := some new_, touch_count := e.touch_count + 1 },
      by simp [vtol_edge.replace_end_point, h1, h2], rfl, rfl, rfl, rfl⟩
  · intro h1 h2
    constructor
    · simp [vtol_edge.replace_end_point, h1, h2]
    · simp [apply_edge_op, after_call, vtol_edge.replace_end_point, h1, h2]

/-- Witness for C2: on the bounded demo edge, replacing endpoint 1 by 9
succeeds and rebinds only `v1`; replacing the non-endpoint 7 fails with
`NotAnEndpoint` and leaves the edge unchanged. -/
theorem C2_replace_end_point_witness :
    (∃ e', edge_demo.replace_end_point 1 9 = Except.ok e' ∧
      e'.v1 = some 9 ∧ e'.v2 = edge_demo.v2 ∧
      e'.zero_chains = edge_demo.zero_chains ∧
      e'.edge_loops = edge_demo.edge_loops) ∧
    (edge_demo.replace_end_point 7 9 = Except.error vtol_error.NotAnEndpoint ∧
      apply_edge_op edge_demo (edge_op.replaceEndPoint 7 9) = edge_demo) :=
  ⟨(C2_replace_end_point edge_demo 1 9).1 rfl,
   (C2_replace_end_point edge_demo 7 9).2.2 (by decide) (by decide)⟩

/-- C3: the default-constructed edge (vtol_edge.h:70) is in state EMPTY —
both endpoint caches unset — and its inferiors are exactly one freshly
created zero-chain, which is empty, linked during construction. -/
theorem C3_default_edge :
    state_of vtol_edge.mk_default = edge_state.EMPTY ∧
    vtol_edge.mk_default.v1 = none ∧
    vtol_edge.mk_default.v2 = none ∧
    vtol_edge.mk_default.zero_chains = [vtol_zero_chain.mk_empty 0] ∧
    (vtol_zero_chain.mk_empty 0).verts = [] := by
  decide

/-- C4: `compute_vertices` is computed from the two cached endpoints only:
on a bounded edge it returns `[v1, v2]` when the endpoints are distinct and
the singleton `[v1]` when `v1 = v2` (self-loop), and its value is unchanged
under arbitrary replacement of the zero-chain inferiors. -/
theorem C4_compute_vertices (e : vtol_edge) (a b : Nat) :
    (e.v1_ = some a → e.v2_ = some b → a ≠ b → e.compute_vertices = [a, b]) ∧
    (e.v1_ = some a → e.v2_ = some a → e.compute_vertices = [a]) ∧
    (∀ zcs : List vtol_zero_chain,
      vtol_edge.compute_vertices { e with zero_chains := zcs } =
        e.compute_vertices) := by
  refine ⟨?_, ?_, fun zcs => rfl⟩
  · intro h1 h2 hne
    simp [vtol_edge.compute_vertices, h1, h2, hne]
  · intro h1 h2
    simp [vtol_edge.compute_vertices, h1, h2]

/-- Witness for C4: the demo edge (endpoints 1, 2) yields `[1, 2]`; the same
edge with both endpoints 1 yields the singleton `[1]`. -/
theorem C4_compute_vertices_witness :
    edge_demo.compute_vertices = [1, 2] ∧
    vtol_edge.compute_vertices { edge_demo with v2_ := some 1 } = [1] :=
  ⟨(C4_compute_vertices edge_demo 1 2).1 rfl rfl (by decide),
   (C4_compute_vertices { edge_demo with v2_ := some 1 } 1 1).2.1 rfl rfl⟩

/-- C5: when an edge's single zero-chain inferior is non-empty, immediately
after `set_vertices_from_zero_chains()` the endpoint cache `v1()` equals the
zero-chain's first vertex and `v2()` equals its last vertex. -/
theorem C5_set_vertices_from_zero_chains (e : vtol_edge) (zc : vtol_zero_chain)
    (h1 : e.zero_chains = [zc]) (h2 : zc.verts ≠ []) :
    e.set_vertices_from_zero_chains.v1 = zc.verts.head? ∧
    e.set_vertices_from_zero_chains.v2 = zc.verts.getLast? := by
  have hz : e.zero_chain = some zc := by
    rw [vtol_edge.zero_chain, h1]
    rw [List.find?_cons_of_pos]
    simp [h2]
  constructor
  · simp [vtol_edge.set_vertices_from_zero_chains, hz, vtol_edge.v1]
  · simp [vtol_edge.set_vertices_from_zero_chains, hz, vtol_edge.v2]

/-- Witness for C5: an edge whose zero-chain holds the vertices 4, 5, 6 gets
`v1() = 4` and `v2() = 6` from `set_vertices_from_zero_chains()`. -/
theorem C5_set_vertices_from_zero_chains_witness :
    (vtol_edge.set_vertices_from_zero_chains
      { v1_ := none, v2_ := none, zero_chains := [{ id := 0, verts := [4, 5, 6] }],
        edge_loops := [], touch_count := 0 }).v1 = some 4 ∧
    (vtol_edge.set_vertices_from_zero_chains
      { v1_ := none, v2_ := none, zero_chains := [{ id := 0, verts := [4, 5, 6] }],
        edge_loops := [], touch_count := 0 }).v2 = some 6 :=
  C5_set_vertices_from_zero_chains
    { v1_ := none, v2_ := none, zero_chains := [{ id := 0, verts := [4, 5, 6] }],
      edge_loops := [], touch_count := 0 }
    { id := 0, verts := [4, 5, 6] } rfl (by decide)

/-- C6: `set_v1` / `set_v2` fail with `InvalidArgument` on a null vertex and
otherwise replace exactly the corresponding cached endpoint, bump the
modification stamp, and leave the other endpoint and every zero-chain vertex
sequence unchanged. -/
theorem C6_set_endpoints (e : vtol_edge) (v : Nat) :
    e.set_v1 none = Except.error vtol_error.InvalidArgument ∧
    e.set_v2 none = Except.error vtol_error.InvalidArgument ∧
    (∃ e', e.set_v1 (some v) = Except.ok e' ∧ e'.v1 = some v ∧ e'.v2 = e.v2 ∧
      e'.touch_count = e.touch_count + 1 ∧
      e'.zero_chains.map vtol_zero_chain.verts =
        e.zero_chains.map vtol_zero_chain.verts) ∧
    (∃ e', e.set_v2 (some v) = Except.ok e' ∧ e'.v2 = some v ∧ e'.v1 = e.v1 ∧
      e'.touch_count = e.touch_count + 1 ∧
      e'.zero_chains.map vtol_zero_chain.verts =
        e.zero_chains.map vtol_zero_chain.verts) :=
  ⟨rfl, rfl,
   ⟨{ e with v1_ := some v, touch_count := e.touch_count + 1 },
     rfl, rfl, rfl, rfl, rfl⟩,
   ⟨{ e with v2_ := some v, touch_count := e.touch_count + 1 },
     rfl, rfl, rfl, rfl, rfl⟩⟩

theorem share_vertex_with_iff (X Y : vtol_edge) :
    X.share_vertex_with Y = true ↔
      ∃ v : Nat, v ∈ X.endpoint_list ∧ v ∈ Y.endpoint_list := by
  simp [vtol_edge.share_vertex_with, List.any_eq_true]

/-- C7: `share_vertex_with` is symmetric, and it returns true exactly when
the endpoint sets of the two edges intersect. -/
theorem C7_share_vertex_with (A B : vtol_edge) :
    A.share_vertex_with B = B.share_vertex_with A ∧
    (A.share_vertex_with B = true ↔
      ∃ v : Nat, v ∈ A.endpoint_list ∧ v ∈ B.endpoint_list) := by
  refine ⟨?_, share_vertex_with_iff A B⟩
  cases h1 : A.share_vertex_with B <;> cases h2 : B.share_vertex_with A
  · rfl
  · obtain ⟨v, hvB, hvA⟩ := (share_vertex_with_iff B A).mp h2
    have hc := (share_vertex_with_iff A B).mpr ⟨v, hvA, hvB⟩
    rw [h1] at hc
    exact absurd hc (by decide)
  · obtain ⟨v, hvA, hvB⟩ := (share_vertex_with_iff A B).mp h1
    have hc := (share_vertex_with_iff B A).mpr ⟨v, hvB, hvA⟩
    rw [h2] at hc
    exact absurd hc (by decide)
  · rfl

theorem head?_isSome_of_ne_nil (l : List Nat) (h : l ≠ []) :
    l.head?.isSome = true := by
  cases l with
  | nil => exact absurd rfl h
  | cons a t => rfl

theorem getLast?_isSome_of_ne_nil (l : List Nat) (h : l ≠ []) :
    l.getLast?.isSome = true := by
  cases l with
  | nil => exact absurd rfl h
  | cons a t => rfl

theorem zero_chain_nonempty (e : vtol_edge) (zc : vtol_zero_chain)
    (hz : e.zero_chain = some zc) : zc.verts ≠ [] := by
  rw [vtol_edge.zero_chain] at hz
  have hp := List.find?_some hz
  simpa using hp

theorem apply_edge_op_v1_mono (e : vtol_edge) (op : edge_op)
    (h : e.v1_.isSome = true) : (apply_edge_op e op).v1_.isSome = true := by
  cases op with
  | setV1 v =>
    cases v with
    | none => exact h
    | some w => rfl
  | setV2 v =>
    cases v with
    | none => exact h
    | some w => exact h
  | replaceEndPoint old new_ =>
    simp only [apply_edge_op, vtol_edge.replace_end_point]
    by_cases h1 : e.v1_ = some old
    · simp [h1, after_call]
    · by_cases h2 : e.v2_ = some old
      · simp only [h1, if_false, h2, if_true, after_call, if_neg h1, if_pos h2]
        exact h
      · simp only [after_call, if_neg h1, if_neg h2]
        exact h
  | setVerticesFromZeroChains =>
    simp only [apply_edge_op, vtol_edge.set_vertices_from_zero_chains]
    cases hz : e.zero_chain with
    | none => exact h
    | some zc =>
      have hne : zc.verts ≠ [] := zero_chain_nonempty e zc hz
      exact head?_isSome_of_ne_nil zc.verts hne
  | linkInferior zc => exact h
  | unlinkInferior zc =>
    simp only [apply_edge_op, vtol_edge.unlink_inferior]
    split
    · exact h
    · exact h
  | addEdgeLoop c => exact h
  | removeEdgeLoop c =>
    simp only [apply_edge_op, vtol_edge.remove_edge_loop]
    split
    · exact h
    · exact h

theorem apply_edge_op_v2_mono (e : vtol_edge) (op : edge_op)
    (h : e.v2_.isSome = true) : (apply_edge_op e op).v2_.isSome = true := by
  cases op with
  | setV1 v =>
    cases v with
    | none => exact h
    | some w => exact h
  | setV2 v =>
    cases v with
    | none => exact h
    | some w => rfl
  | replaceEndPoint old new_ =>
    simp only [apply_edge_op, vtol_edge.replace_end_point]
    by_cases h1 : e.v1_ = some old
    · simp only [after_call, if_pos h1]
      exact h
    · by_cases h2 : e.v2_ = some old
      · simp [h1, h2, after_call]
      · simp only [after_call, if_neg h1, if_neg h2]
        exact h
  | setVerticesFromZeroChains =>
    simp only [apply_edge_op, vtol_edge.set_vertices_from_zero_chains]
    cases hz : e.zero_chain with
    | none => exact h
    | some zc =>
      have hne : zc.verts ≠ [] := zero_chain_nonempty e zc hz
      exact getLast?_isSome_of_ne_nil zc.verts hne
  | linkInferior zc => exact h
  | unlinkInferior zc =>
    simp only [apply_edge_op, vtol_edge.unlink_inferior]
    split
    · exact h
    · exact h
  | addEdgeLoop c => exact h
  | removeEdgeLoop c =>
    simp only [apply_edge_op, vtol_edge.remove_edge_loop]
    split
    · exact h
    · exact h

theorem run_edge_v1_mono (e : vtol_edge) (ops : List edge_op)
    (h : e.v1_.isSome = true) : (run_edge e ops).v1_.isSome = true := by
  induction ops generalizing e with
  | nil => exact h
  | cons op rest ih =>
    exact ih (apply_edge_op e op) (apply_edge_op_v1_mono e op h)

theorem run_edge_v2_mono (e : vtol_edge) (ops : List edge_op)
    (h : e.v2_.isSome = true) : (run_edge e ops).v2_.isSome = true := by
  induction ops generalizing e with
  | nil => exact h
  | cons op rest ih =>
    exact ih (apply_edge_op e op) (apply_edge_op_v2_mono e op h)

theorem state_of_BOUNDED_iff (e : vtol_edge) :
    state_of e = edge_state.BOUNDED ↔
      e.v1_.isSome = true ∧ e.v2_.isSome = true := by
  cases h1 : e.v1_ <;> cases h2 : e.v2_ <;> simp [state_of, h1, h2]

theorem state_of_RAY_v1 (e : vtol_edge) (h : state_of e = edge_state.RAY) :
    e.v1_.isSome = true := by
  cases h1 : e.v1_ <;> cases h2 : e.v2_ <;> simp [state_of, h1, h2] at h ⊢

theorem state_of_v1_isSome (e : vtol_edge) (h : e.v1_.isSome = true) :
    state_of e = edge_state.RAY ∨ state_of e = edge_state.BOUNDED := by
  cases h1 : e.v1_ <;> cases h2 : e.v2_ <;>
    simp [state_of, h1, h2] <;> simp [h1] at h

/-- C8 (amended): endpoint monotonicity.  Under every sequence of
mutation-API calls, an already-set endpoint cache never returns to unset:
if `v1_` (resp. `v2_`) is set it stays set, a BOUNDED edge stays BOUNDED,
and a RAY edge only ever remains RAY or advances to BOUNDED — the reverse
transitions never occur.  (Transitions other than EMPTY → RAY and
RAY → BOUNDED do exist; see the counterexample.) -/
theorem C8_endpoint_monotone (e : vtol_edge) (ops : List edge_op) :
    (e.v1_.isSome = true → (run_edge e ops).v1_.isSome = true) ∧
    (e.v2_.isSome = true → (run_edge e ops).v2_.isSome = true) ∧
    (state_of e = edge_state.BOUNDED →
      state_of (run_edge e ops) = edge_state.BOUNDED) ∧
    (state_of e = edge_state.RAY →
      state_of (run_edge e ops) = edge_state.RAY ∨
      state_of (run_edge e ops) = edge_state.BOUNDED) := by
  refine ⟨run_edge_v1_mono e ops, run_edge_v2_mono e ops, ?_, ?_⟩
  · intro hb
    obtain ⟨h1, h2⟩ := (state_of_BOUNDED_iff e).mp hb
    exact (state_of_BOUNDED_iff (run_edge e ops)).mpr
      ⟨run_edge_v1_mono e ops h1, run_edge_v2_mono e ops h2⟩
  · intro hr
    exact state_of_v1_isSome (run_edge e ops)
      (run_edge_v1_mono e ops (state_of_RAY_v1 e hr))

/-- Witness for C8 (amended): the BOUNDED demo edge keeps both endpoints set
and stays BOUNDED across a reconciliation call followed by an (absent-vertex)
endpoint replacement. -/
theorem C8_endpoint_monotone_witness :
    (run_edge edge_demo
      [edge_op.setVerticesFromZeroChains, edge_op.replaceEndPoint 9 7]).v1_.isSome
        = true ∧
    state_of (run_edge edge_demo
      [edge_op.setVerticesFromZeroChains, edge_op.replaceEndPoint 9 7])
        = edge_state.BOUNDED :=
  ⟨(C8_endpoint_monotone edge_demo
      [edge_op.setVerticesFromZeroChains, edge_op.replaceEndPoint 9 7]).1 rfl,
   (C8_endpoint_monotone edge_demo
      [edge_op.setVerticesFromZeroChains, edge_op.replaceEndPoint 9 7]).2.2.1 rfl⟩

/-- Counterexample for C8 as stated: from the EMPTY default-constructed edge,
the single public call `set_v2(5)` reaches an externally observable state with
`v1_` unset and `v2_` set — a state that is none of EMPTY, RAY or BOUNDED, so
the transition taken is neither EMPTY → RAY nor RAY → BOUNDED. -/
theorem C8_counterexample :
    state_of vtol_edge.mk_default = edge_state.EMPTY ∧
    state_of (run_edge vtol_edge.mk_default [edge_op.setV2 (some 5)]) =
      edge_state.V2_ONLY ∧
    state_of (run_edge vtol_edge.mk_default [edge_op.setV2 (some 5)]) ≠
      edge_state.EMPTY ∧
    state_of (run_edge vtol_edge.mk_default [edge_op.setV2 (some 5)]) ≠
      edge_state.RAY ∧
    state_of (run_edge vtol_edge.mk_default [edge_op.setV2 (some 5)]) ≠
      edge_state.BOUNDED := by
  decide

/-- C9 (amended): the default-constructed edge has exactly one zero-chain
inferior, and every mutation-API call other than the public `link_inferior` /
`unlink_inferior` pair leaves the zero-chain inferiors untouched — keeping
the count at one is the caller's responsibility for those two calls. -/
theorem C9_zero_chain_count (e : vtol_edge) (op : edge_op) :
    vtol_edge.mk_default.zero_chains.length = 1 ∧
    ((∀ zc, op ≠ edge_op.linkInferior zc) →
     (∀ zc, op ≠ edge_op.unlinkInferior zc) →
     (apply_edge_op e op).zero_chains = e.zero_chains) := by
  refine ⟨rfl, ?_⟩
  intro hl hu
  cases op with
  | setV1 v => cases v <;> rfl
  | setV2 v => cases v <;> rfl
  | replaceEndPoint old new_ =>
    simp only [apply_edge_op, vtol_edge.replace_end_point]
    by_cases h1 : e.v1_ = some old
    · simp [h1, after_call]
    · by_cases h2 : e.v2_ = some old <;> simp [h1, h2, after_call]
  | setVerticesFromZeroChains =>
    simp only [apply_edge_op, vtol_edge.set_vertices_from_zero_chains]
    cases hz : e.zero_chain <;> rfl
  | linkInferior zc => exact absurd rfl (hl zc)
  | unlinkInferior zc => exact absurd rfl (hu zc)
  | addEdgeLoop c => rfl
  | removeEdgeLoop c =>
    simp only [apply_edge_op, vtol_edge.remove_edge_loop]
    split <;> rfl

/-- Witness for C9 (amended): `set_v1(3)` on the demo edge leaves its
zero-chain inferiors untouched. -/
theorem C9_zero_chain_count_witness :
    vtol_edge.mk_default.zero_chains.length = 1 ∧
    (apply_edge_op edge_demo (edge_op.setV1 (some 3))).zero_chains =
      edge_demo.zero_chains :=
  ⟨(C9_zero_chain_count edge_demo (edge_op.setV1 (some 3))).1,
   (C9_zero_chain_count edge_demo (edge_op.setV1 (some 3))).2
     (fun _ h => edge_op.noConfusion h) (fun _ h => edge_op.noConfusion h)⟩

/-- Counterexample for C9 as stated: `link_inferior` is a public call
(vtol_edge.h:153) and invoking it with a second zero-chain leaves the
default-constructed edge with two zero-chain inferiors at an externally
observable moment. -/
theorem C9_counterexample :
    (apply_edge_op vtol_edge.mk_default
      (edge_op.linkInferior (vtol_zero_chain.mk_empty 1))).zero_chains.length
      = 2 ∧
    (apply_edge_op vtol_edge.mk_default
      (edge_op.linkInferior (vtol_zero_chain.mk_empty 1))).zero_chains.length
      ≠ 1 := by
  decide

/-- C10: `operator!=` (vtol_edge.h:119) is exactly the complement of
`operator==`, whatever geometry comparison the concrete subtype supplies:
`e != e2` returns the Boolean negation of `e == e2`, so it holds as a
proposition precisely when `e == e2` does not. -/
theorem C10_op_ne_complement (cg : vtol_edge → vtol_edge → Bool)
    (e e2 : vtol_edge) :
    vtol_edge.op_ne cg e e2 = ! vtol_edge.op_eq cg e e2 ∧
    (vtol_edge.op_ne cg e e2 = true ↔ ¬ vtol_edge.op_eq cg e e2 = true) := by
  refine ⟨rfl, ?_⟩
  simp [vtol_edge.op_ne]
